import Mathlib

/-
Shallow embedding of the django-modalview repository
(django_modalview/generic/component.py and django_modalview/generic/base.py).

Python dictionaries that the code reads and writes (template contexts,
utility keyword arguments, the request's query parameters) are modelled as
association lists with Python `dict` semantics: `dictSet` is `d[k] = v`
(replacing in place or appending), `dictUpdate` is `d.update(other)`,
`dictGet` is `d.get(k)`.  The request's query mapping `request.GET` is a
Django `QueryDict`; `dict.update(querydict)` reads each key through
`QueryDict.__getitem__`, which yields the LAST value submitted for the key,
so `request.GET` is embedded as the association list of key / last-value
pairs.  Python truthiness of an optional string (`self.redirect_to`,
`get_dict.get('util')`) is `truthyOptStr`: `None` and the empty string are
falsy, every other string is truthy.

External collaborators are embedded as explicit inputs: the template
renderer `django.template.loader.render_to_string` is a function parameter
`render`, and `django.middleware.csrf.get_token(request)` is the `token`
field of the embedded `Request`.  Calls into these collaborators are
recorded in an `Event` trace so that "the renderer is never invoked on this
branch" is a statement about the trace, independent of the `render`
function supplied.
-/

namespace DjangoModalview

/-- Python dict assignment `d[k] = v`: replace the binding in place if the
key is present, otherwise append the new binding at the end. -/
def dictSet {α : Type} : List (String × α) → String → α → List (String × α)
  | [], k, v => [(k, v)]
  | (k', v') :: rest, k, v =>
      if k' = k then (k, v) :: rest else (k', v') :: dictSet rest k v

/-- Python `d.update(other)`: fold every binding of `other` into `d` with
`dictSet`, so on a key collision the value from `other` wins. -/
def dictUpdate {α : Type} (d other : List (String × α)) : List (String × α) :=
  other.foldl (fun acc kv => dictSet acc kv.1 kv.2) d

/-- Python `d.get(k)`: the value bound to the first occurrence of `k`. -/
def dictGet {α : Type} : List (String × α) → String → Option α
  | [], _ => none
  | (k', v') :: rest, k => if k' = k then some v' else dictGet rest k

/-- Python truthiness of an optional string: `None` and `""` are falsy. -/
def truthyOptStr : Option String → Bool
  | none => false
  | some s => s ≠ ""

/-- Template name constant `GET_TEMPLATE` from generic/component.py. -/
def GET_TEMPLATE : String := "django_modalview/modal.html"

/-- Template name constant `GET_TEMPLATE_CONTENT` from generic/component.py. -/
def GET_TEMPLATE_CONTENT : String := "django_modalview/modal_get_content.html"

/-- Template name constant `BASE_TEMPLATE` from generic/component.py. -/
def BASE_TEMPLATE : String := "django_modalview/base.html"

/-- The `ModalButton` value object of generic/component.py: `__init__`
stores `value`, `display`, `button_type` (as `self.type`) and `url`. -/
structure ModalButton where
  value : Option String
  type : String
  display : Bool
  url : Option String
deriving DecidableEq, Repr

/-- Constructor defaults of `ModalButton.__init__`
(`button_type='info'`, `display=True`, `url=None`). -/
def ModalButton.mkDefault (value : Option String) : ModalButton :=
  { value := value, type := "info", display := true, url := none }

/-- The `ModalResponse` value object of generic/component.py. -/
structure ModalResponse where
  text : String
  result : String
deriving DecidableEq, Repr

/-- Values stored in a template context dictionary.  The contexts built by
base.py hold strings, optional strings, buttons, an optional
`ModalResponse`, and the view itself (inserted by Django's
`ContextMixin.get_context_data` under the key `view`). -/
inductive Value where
  | str : String → Value
  | optStr : Option String → Value
  | button : ModalButton → Value
  | resp : Option ModalResponse → Value
  | view : Value
deriving DecidableEq, Repr

/-- A template context: a Python dict from string keys to `Value`. -/
abbrev Ctx : Type := List (String × Value)

/-- Lift URL keyword arguments (string to string) into a context dict,
as Python does implicitly when they are passed as `**kwargs`. -/
def ctxOfKwargs (kwargs : List (String × String)) : Ctx :=
  kwargs.map (fun kv => (kv.1, Value.str kv.2))

/-- The embedded HTTP request: the fields of the Django request object that
base.py reads.  `is_ajax` is the result of `request.is_ajax()`, `GET` the
query-parameter mapping, `token` the value `get_token(request)` would
issue, `path_info` is `request.META['PATH_INFO']`. -/
structure Request where
  is_ajax : Bool
  GET : List (String × String)
  token : String
  path_info : String
deriving DecidableEq, Repr

/-- The mutable attributes of a composed modal view instance that base.py
reads and writes: the context fields set by `ModalContextMixin.__init__`,
the request-classification fields set by `ModalView.__init__`/`dispatch`,
the `template_name` of `TemplateResponseMixin`, and the fields of
`ModalUtilMixin` and `ModalTemplateUtilView`. -/
structure ViewState where
  title : String
  description : String
  icon : Option String
  response : Option ModalResponse
  close_button : ModalButton
  content_template_name : Option String
  base_template_name : String
  is_ajax : Bool
  _can_redirect : Bool
  redirect_to : Option String
  template_name : Option String
  util_kwargs : List (String × String)
  util_button : ModalButton
  util_name : String
deriving DecidableEq, Repr

/-- Events recording each call into a collaborator or helper, in program
order, so that claims about a collaborator never being invoked are
statements about the trace. -/
inductive Event where
  | get_content_called
  | valid_template_called
  | get_token_called
  | csrf_injected
  | render_to_string_called : List String → Ctx → Event
  | get_util_kwargs_called
  | util_method_called : String → List (String × String) → Event
deriving DecidableEq, Repr

/-- The two response classes base.py chooses between:
`ModalTemplateMixin.json_response_class` (= `ModalJsonResponse`) and
`ModalTemplateMixin.http_response_class` (= `HttpResponse`). -/
inductive ResponseClassKind where
  | json_response_class
  | http_response_class
deriving DecidableEq, Repr

/-- Constructor arguments with which base.py instantiates the selected
response class: either positionally with the rendered content string, or
with the keyword arguments `response_type='redirect'` and
`redirect_to=self.redirect_to`. -/
inductive ResponseArgs where
  | content : String → ResponseArgs
  | redirect : Option String → ResponseArgs
deriving DecidableEq, Repr

/-- A constructed response: which class was instantiated, with which
arguments. -/
inductive Response where
  | json : ResponseArgs → Response
  | http : ResponseArgs → Response
deriving DecidableEq, Repr

/-- Instantiation of the selected response class. -/
def mkResponse : ResponseClassKind → ResponseArgs → Response
  | ResponseClassKind.json_response_class, a => Response.json a
  | ResponseClassKind.http_response_class, a => Response.http a

/-- Body of `ModalContextMixin.__init__` (base.py lines 20-30) applied to a
view instance: whatever `title` and `description` arguments were received,
the body assigns the literal strings `"title"` and `"description"`; only
`icon` is stored from the arguments.  `close_button` becomes
`ModalButton('Close', button_type='primary')`. -/
def ModalContextMixin_init (title description icon : Option String)
    (s : ViewState) : ViewState :=
  let _ := title
  let _ := description
  { s with
    title := "title"
    response := none
    icon := icon
    description := "description"
    close_button := { value := some "Close", type := "primary",
                      display := true, url := none }
    content_template_name := none
    base_template_name := BASE_TEMPLATE }

/-- Body of `ModalView.__init__`. -/
def ModalView_init (s : ViewState) : ViewState :=
  { s with is_ajax := false, _can_redirect := false, redirect_to := none }

/-- The `ModalView.can_redirect` predicate (base.py lines 61-62), read in
boolean position: `self._can_redirect and self.is_ajax and
self.redirect_to`, with the optional string `redirect_to` read through
Python truthiness. -/
def can_redirect (s : ViewState) : Bool :=
  s._can_redirect && s.is_ajax && truthyOptStr s.redirect_to

/-- The assembly of `ModalView.dispatch`: record `request.is_ajax()` on the
instance before delegating to the framework dispatch. -/
def ModalView_dispatch_setup (req : Request) (s : ViewState) : ViewState :=
  { s with is_ajax := req.is_ajax }

/-- The dict literal returned by
`ModalContextMixin._generate_modal_context`. -/
def _generate_modal_context (s : ViewState) : Ctx :=
  [("title", Value.str s.title),
   ("description", Value.str s.description),
   ("button_close", Value.button s.close_button),
   ("content_template_name", Value.optStr s.content_template_name),
   ("base_template_name", Value.str s.base_template_name),
   ("icon", Value.optStr s.icon),
   ("response", Value.resp s.response)]

/-- `ModalContextMixin.get_context_modal_data`:
`kwargs.update(self._generate_modal_context()); return kwargs`. -/
def get_context_modal_data (s : ViewState) (kwargs : Ctx) : Ctx :=
  dictUpdate kwargs (_generate_modal_context s)

/-- Django's `ContextMixin.get_context_data`, called by
`render_to_response` with no arguments: it returns its kwargs dict after
inserting the view instance under the key `view`.  No class in base.py
overrides it. -/
def get_context_data (s : ViewState) : Ctx :=
  let _ := s
  [("view", Value.view)]

/-- `ModalTemplateMixin._valid_template` (base.py lines 86-88): when the
request is not AJAX, force `self.template_name` to `GET_TEMPLATE`. -/
def _valid_template (s : ViewState) : ViewState :=
  if !s.is_ajax then { s with template_name := some GET_TEMPLATE } else s

/-- Django's `TemplateResponseMixin.get_template_names`: `[template_name]`,
or an `ImproperlyConfigured` error when `template_name` is `None`. -/
def get_template_names (s : ViewState) : Except String (List String) :=
  match s.template_name with
  | some t => Except.ok [t]
  | none => Except.error "ImproperlyConfigured"

/-- `ModalTemplateMixin._get_content` (base.py lines 90-99): call
`_valid_template`, add `csrf_token_value` bound to
`get_token(self.request)` to the context, then call
`render_to_string(self.get_template_names(), context)`.  Returns the
mutated view state, the rendered string (or the propagated template-name
error), and the trace of collaborator calls in program order. -/
def _get_content (render : List String → Ctx → String) (req : Request)
    (s : ViewState) (context : Ctx) :
    ViewState × Except String String × List Event :=
  let s' := _valid_template s
  let context' := dictSet context "csrf_token_value" (Value.str req.token)
  match get_template_names s' with
  | Except.ok tpls =>
      (s', Except.ok (render tpls context'),
       [Event.valid_template_called, Event.get_token_called,
        Event.csrf_injected, Event.render_to_string_called tpls context'])
  | Except.error e =>
      (s', Except.error e,
       [Event.valid_template_called, Event.get_token_called,
        Event.csrf_injected])

/-- `ModalTemplateMixin.get_response` (base.py lines 101-106): the JSON
response class when `is_ajax`, else the plain HTTP response class. -/
def get_response (is_ajax : Bool) : ResponseClassKind :=
  if is_ajax then ResponseClassKind.json_response_class
  else ResponseClassKind.http_response_class

/-- `ModalTemplateMixin.render_to_response` (base.py lines 108-115): select
the response class from `is_ajax`; if `self.can_redirect()`, instantiate
it with `response_type='redirect'` and `redirect_to=self.redirect_to`;
otherwise `context.update(self.get_context_data())` and instantiate it
with `self._get_content(context)`. -/
def render_to_response (render : List String → Ctx → String) (req : Request)
    (s : ViewState) (is_ajax : Bool) (context : Ctx) :
    ViewState × Except String Response × List Event :=
  let ResponseClass := get_response is_ajax
  if can_redirect s then
    (s, Except.ok (mkResponse ResponseClass (ResponseArgs.redirect s.redirect_to)), [])
  else
    let context' := dictUpdate context (get_context_data s)
    match _get_content render req s context' with
    | (s', Except.ok c, ev) =>
        (s', Except.ok (mkResponse ResponseClass (ResponseArgs.content c)),
         Event.get_content_called :: ev)
    | (s', Except.error e, ev) =>
        (s', Except.error e, Event.get_content_called :: ev)

/-- `ModalView.get` (base.py lines 68-73): build the modal context from the
URL kwargs, then `render_to_response(is_ajax=self.is_ajax, context=...)`.
`buildCtx` is the `get_context_modal_data` the method-resolution order
selects on the receiver (`ModalTemplateUtilView` overrides it). -/
def ModalView_get_with (buildCtx : ViewState → Ctx → Ctx)
    (render : List String → Ctx → String) (req : Request) (s : ViewState)
    (kwargs : List (String × String)) :
    ViewState × Except String Response × List Event :=
  let context := buildCtx s (ctxOfKwargs kwargs)
  render_to_response render req s s.is_ajax context

/-- `ModalView.get` as dispatched on a view whose
`get_context_modal_data` is `ModalContextMixin`'s. -/
def ModalView_get (render : List String → Ctx → String) (req : Request)
    (s : ViewState) (kwargs : List (String × String)) :
    ViewState × Except String Response × List Event :=
  ModalView_get_with get_context_modal_data render req s kwargs

/-- A utility method defined on a view subclass: it receives the view
instance (`self`), the positional arguments, and the expanded keyword
arguments, and returns the mutated instance. -/
abbrev UtilFn : Type := ViewState → List String → List (String × String) → ViewState

/-- The utility methods a concrete view subclass defines, as a name-indexed
table: `dictGet methods name` embeds `hasattr(self, name)` /
`getattr(self, name)` for the dynamically-looked-up attribute. -/
abbrev UtilMethods : Type := List (String × UtilFn)

/-- `ModalUtilMixin.get_util_kwargs` (base.py lines 136-139):
`kwargs.update(self.request.GET)` (query parameters overriding the passed
kwargs), then `self.util_kwargs.update(**kwargs)` (the merged dict
overriding the accumulated kwargs in place), returning `self.util_kwargs`.
Returns the view with its mutated `util_kwargs` field together with the
returned dict. -/
def get_util_kwargs (req : Request) (s : ViewState)
    (kwargs : List (String × String)) :
    ViewState × List (String × String) :=
  let kwargs' := dictUpdate kwargs req.GET
  let merged := dictUpdate s.util_kwargs kwargs'
  ({ s with util_kwargs := merged }, merged)

/-- `ModalUtilMixin.get_util` (base.py lines 128-134): when `self` has an
attribute named `func_name`, call `self.get_util_kwargs(**kwargs)` and
invoke the attribute with the positional args and the merged kwargs;
otherwise raise `Exception("You should implement one method name
{ name}!")` without calling anything.  The raised branch is `Except.error`
carrying the formatted message, paired with the (empty) call trace. -/
def get_util (methods : UtilMethods) (req : Request) (s : ViewState)
    (func_name : String) (args : List String)
    (kwargs : List (String × String)) :
    Except String ViewState × List Event :=
  match dictGet methods func_name with
  | some f =>
      let (s', util_kwargs) := get_util_kwargs req s kwargs
      (Except.ok (f s' args util_kwargs),
       [Event.get_util_kwargs_called,
        Event.util_method_called func_name util_kwargs])
  | none =>
      (Except.error ("You should implement one method name "
          ++ func_name ++ "!"), [])

/-- Body of `BaseModalView.__init__` run after the cooperative
`ModalContextMixin.__init__` / `ModalView.__init__` chain. -/
def BaseModalView_init (title description icon : Option String)
    (s : ViewState) : ViewState :=
  let s := ModalView_init (ModalContextMixin_init title description icon s)
  { s with
    template_name := some GET_TEMPLATE
    content_template_name := some GET_TEMPLATE_CONTENT }

/-- `ModalTemplateUtilView.get_context_modal_data`: add `util_button` to the
kwargs, then delegate to `ModalContextMixin.get_context_modal_data`. -/
def ModalTemplateUtilView_get_context_modal_data (s : ViewState)
    (kwargs : Ctx) : Ctx :=
  get_context_modal_data s
    (dictUpdate kwargs [("util_button", Value.button s.util_button)])

/-- `ModalTemplateUtilView.get` (base.py lines 185-193): when the query
parameters hold a truthy `util`, set `self._can_redirect = True`, run
`self.get_util(self.util_name, **self.kwargs)`, set `self.template_name =
self.content_template_name`, and then (as for a GET without the marker)
delegate to the inherited `ModalView.get`.  An exception raised by
`get_util` propagates, skipping the remaining statements. -/
def ModalTemplateUtilView_get (methods : UtilMethods)
    (render : List String → Ctx → String) (req : Request) (s : ViewState)
    (kwargs : List (String × String)) :
    ViewState × Except String Response × List Event :=
  if truthyOptStr (dictGet req.GET "util") then
    let s1 := { s with _can_redirect := true }
    match get_util methods req s1 s1.util_name [] kwargs with
    | (Except.ok s2, ev1) =>
        let s3 := { s2 with template_name := s2.content_template_name }
        let (s4, resp, ev2) :=
          ModalView_get_with ModalTemplateUtilView_get_context_modal_data
            render req s3 kwargs
        (s4, resp, ev1 ++ ev2)
    | (Except.error e, ev1) => (s1, Except.error e, ev1)
  else
    ModalView_get_with ModalTemplateUtilView_get_context_modal_data
      render req s kwargs

/-- Keys of an embedded Python dict are pairwise distinct; every dict the
code passes around satisfies this. -/
abbrev NodupKeys {α : Type} (d : List (String × α)) : Prop :=
  (d.map Prod.fst).Nodup

/-- Sample request used to instantiate the theorems on concrete inputs: an
AJAX GET of `/thing/?util=true&x=5`. -/
def sampleRequest : Request :=
  { is_ajax := true, GET := [("util", "true"), ("x", "5")], token := "tok",
    path_info := "/thing/" }

/-- Sample view instance as `BaseModalView.__init__` leaves it, after an
AJAX dispatch, with the redirect flag armed and a redirect target set. -/
def sampleState : ViewState :=
  { title := "title", description := "description", icon := none,
    response := none,
    close_button := { value := some "Close", type := "primary",
                      display := true, url := none },
    content_template_name := some GET_TEMPLATE_CONTENT,
    base_template_name := BASE_TEMPLATE,
    is_ajax := true, _can_redirect := true, redirect_to := some "/next",
    template_name := some GET_TEMPLATE, util_kwargs := [],
    util_button := ModalButton.mkDefault (some "Run test"),
    util_name := "util" }

/-- Sample template renderer: returns the template names it was asked to
resolve, so instantiated theorems record which template was rendered. -/
def sampleRender : List String → Ctx → String :=
  fun tpls _ => String.intercalate "," tpls

/-- Sample utility method: records an outcome on the view and sets the
redirect target from its keyword arguments, like the `util` methods the
README shows. -/
def sampleUtil : UtilFn :=
  fun s _ kwargs =>
    { s with response := some { text := "ok", result := "info" },
             redirect_to := dictGet kwargs "x" }

theorem dictGet_dictSet {α : Type} (d : List (String × α)) (k k' : String)
    (v : α) :
    dictGet (dictSet d k v) k' = if k = k' then some v else dictGet d k' := by
  induction d with
  | nil => rfl
  | cons hd tl ih =>
      obtain ⟨a, b⟩ := hd
      by_cases h1 : a = k
      · subst h1
        simp only [dictSet, if_pos rfl, dictGet]
        by_cases h2 : a = k'
        · simp [h2]
        · simp [h2]
      · simp only [dictSet, if_neg h1, dictGet]
        by_cases h2 : a = k'
        · have hk : ¬k = k' := fun h => h1 (h2.trans h.symm)
          simp [h2, hk]
        · simp [h2, ih]

theorem dictGet_eq_none_of_not_mem {α : Type} (d : List (String × α))
    (k : String) (h : k ∉ d.map Prod.fst) : dictGet d k = none := by
  induction d with
  | nil => rfl
  | cons hd tl ih =>
      simp only [List.map_cons, List.mem_cons, not_or] at h
      have h1 : ¬hd.1 = k := fun he => h.1 he.symm
      simp [dictGet, h1, ih h.2]

theorem mem_keys_dictSet {α : Type} (d : List (String × α)) (k a : String)
    (v : α) :
    a ∈ (dictSet d k v).map Prod.fst ↔ a ∈ d.map Prod.fst ∨ a = k := by
  induction d with
  | nil => simp [dictSet]
  | cons hd tl ih =>
      by_cases h1 : hd.1 = k
      · subst h1
        simp [dictSet]
        tauto
      · simp [dictSet, h1, ih]
        tauto

theorem nodupKeys_dictSet {α : Type} (d : List (String × α)) (k : String)
    (v : α) (h : NodupKeys d) : NodupKeys (dictSet d k v) := by
  induction d with
  | nil => simp [NodupKeys, dictSet]
  | cons hd tl ih =>
      simp only [NodupKeys, List.map_cons, List.nodup_cons] at h
      by_cases h1 : hd.1 = k
      · subst h1
        simpa [NodupKeys, dictSet] using h
      · have htl := ih h.2
        simp only [NodupKeys, dictSet, h1, if_false, List.map_cons,
          List.nodup_cons]
        refine ⟨?_, htl⟩
        rw [mem_keys_dictSet]
        rintro (hm | hm)
        · exact h.1 hm
        · exact h1 hm

theorem nodupKeys_dictUpdate {α : Type} (d e : List (String × α))
    (h : NodupKeys d) : NodupKeys (dictUpdate d e) := by
  induction e generalizing d with
  | nil => exact h
  | cons hd tl ih =>
      have : dictUpdate d (hd :: tl) = dictUpdate (dictSet d hd.1 hd.2) tl := rfl
      rw [this]
      exact ih _ (nodupKeys_dictSet d hd.1 hd.2 h)

theorem dictGet_dictUpdate {α : Type} (d e : List (String × α)) (k : String)
    (h : NodupKeys e) :
    dictGet (dictUpdate d e) k
      = (dictGet e k).orElse (fun _ => dictGet d k) := by
  induction e generalizing d with
  | nil => simp [dictUpdate, dictGet, Option.orElse]
  | cons hd tl ih =>
      simp only [NodupKeys, List.map_cons, List.nodup_cons] at h
      have step : dictUpdate d (hd :: tl) = dictUpdate (dictSet d hd.1 hd.2) tl := rfl
      rw [step, ih _ h.2]
      by_cases hk : hd.1 = k
      · subst hk
        rw [dictGet_eq_none_of_not_mem tl _ h.1]
        simp [dictGet, dictGet_dictSet, Option.orElse]
      · simp [dictGet, hk, dictGet_dictSet, Option.orElse]

/-- C4: `can_redirect()` returns true exactly when the internal
`_can_redirect` flag was armed, `is_ajax` is true, and `redirect_to` is set
to a non-empty target; if any of the three is unset or false it returns
false. -/
theorem can_redirect_iff (s : ViewState) :
    can_redirect s = true ↔
      s._can_redirect = true ∧ s.is_ajax = true ∧
        ∃ target, s.redirect_to = some target ∧ target ≠ "" := by
  cases h : s.redirect_to with
  | none => simp [can_redirect, truthyOptStr, h]
  | some t => simp [can_redirect, truthyOptStr, h, Bool.and_eq_true, and_assoc]

/-- C1: whenever `can_redirect()` is true, `render_to_response` returns the
response built with `response_type='redirect'` carrying
`self.redirect_to`, and the call trace is empty: `_get_content` (and hence
`render_to_string` and `get_token`) is never invoked on this branch. -/
theorem render_to_response_redirect_skips_rendering
    (render : List String → Ctx → String) (req : Request) (s : ViewState)
    (is_ajax : Bool) (context : Ctx) (h : can_redirect s = true) :
    render_to_response render req s is_ajax context =
      (s, Except.ok (mkResponse (get_response is_ajax)
            (ResponseArgs.redirect s.redirect_to)), []) := by
  simp [render_to_response, h]

/-- Witness for C1 at the sample AJAX request with the redirect armed. -/
theorem render_to_response_redirect_skips_rendering_witness :
    can_redirect sampleState = true ∧
    render_to_response sampleRender sampleRequest sampleState true [] =
      (sampleState,
       Except.ok (Response.json (ResponseArgs.redirect (some "/next"))), []) := by
  refine ⟨by decide, ?_⟩
  rw [render_to_response_redirect_skips_rendering sampleRender sampleRequest
        sampleState true [] (by decide)]
  rfl

/-- C10: `ModalContextMixin.__init__` ignores its `title` and `description`
arguments — afterwards `self.title` is the literal `"title"` and
`self.description` the literal `"description"`, whatever was passed —
while the `icon` argument is stored. -/
theorem modal_context_mixin_init_ignores_title_description
    (title description icon : Option String) (s : ViewState) :
    (ModalContextMixin_init title description icon s).title = "title" ∧
    (ModalContextMixin_init title description icon s).description
        = "description" ∧
    (ModalContextMixin_init title description icon s).icon = icon :=
  ⟨rfl, rfl, rfl⟩

/-- C5: `get_util` on a missing attribute raises the configuration error
naming the missing method, with an empty call trace (no
`get_util_kwargs`, no method invocation, `util_kwargs` untouched);
conversely when the attribute exists no error is raised: `get_util_kwargs`
runs and the named method is called with the merged kwargs. -/
theorem get_util_missing_method (methods : UtilMethods) (req : Request)
    (s : ViewState) (name : String) (args : List String)
    (kwargs : List (String × String)) :
    (dictGet methods name = none →
      get_util methods req s name args kwargs =
        (Except.error ("You should implement one method name "
            ++ name ++ "!"), [])) ∧
    (∀ f, dictGet methods name = some f →
      get_util methods req s name args kwargs =
        (Except.ok (f (get_util_kwargs req s kwargs).1 args
            (get_util_kwargs req s kwargs).2),
         [Event.get_util_kwargs_called,
          Event.util_method_called name (get_util_kwargs req s kwargs).2])) := by
  constructor
  · intro h
    simp [get_util, h]
  · intro f h
    simp [get_util, h]

/-- Witness for C5: a view with no `util` attribute raises; one with the
sample utility method runs it. -/
theorem get_util_missing_method_witness :
    get_util [] sampleRequest sampleState "util" [] [] =
      (Except.error "You should implement one method name util!", []) ∧
    get_util [("util", sampleUtil)] sampleRequest sampleState "util" [] [] =
      (Except.ok (sampleUtil
          (get_util_kwargs sampleRequest sampleState []).1 []
          (get_util_kwargs sampleRequest sampleState []).2),
       [Event.get_util_kwargs_called,
        Event.util_method_called "util"
          (get_util_kwargs sampleRequest sampleState []).2]) := by
  constructor
  · rw [(get_util_missing_method [] sampleRequest sampleState "util" [] []).1
        rfl]
    rfl
  · exact (get_util_missing_method [("util", sampleUtil)] sampleRequest
      sampleState "util" [] []).2 sampleUtil rfl

/-- C6: `get_util_kwargs` returns the merge of the accumulated
`util_kwargs`, the passed kwargs, and the request's query parameters, with
the query parameter winning on any collision (and the passed kwargs
winning over the accumulated ones). -/
theorem get_util_kwargs_query_params_win (req : Request) (s : ViewState)
    (kwargs : List (String × String)) (k : String)
    (hg : NodupKeys req.GET) (hk : NodupKeys kwargs) :
    dictGet (get_util_kwargs req s kwargs).2 k =
      (dictGet req.GET k).orElse (fun _ =>
        (dictGet kwargs k).orElse (fun _ => dictGet s.util_kwargs k)) := by
  show dictGet (dictUpdate s.util_kwargs (dictUpdate kwargs req.GET)) k = _
  rw [dictGet_dictUpdate _ _ _ (nodupKeys_dictUpdate _ _ hk),
      dictGet_dictUpdate _ _ _ hg]
  cases dictGet req.GET k <;> cases dictGet kwargs k <;>
    simp [Option.orElse]

/-- Witness for C6: with `x` bound in the accumulated kwargs (`"0"`), the
passed kwargs (`"9"`) and the query string (`"5"`), the query value wins;
a key only in the passed kwargs survives. -/
theorem get_util_kwargs_query_params_win_witness :
    NodupKeys sampleRequest.GET ∧
    NodupKeys ([("x", "9"), ("z", "3")] : List (String × String)) ∧
    dictGet (get_util_kwargs sampleRequest
        { sampleState with util_kwargs := [("x", "0"), ("y", "2")] }
        [("x", "9"), ("z", "3")]).2 "x" = some "5" ∧
    dictGet (get_util_kwargs sampleRequest
        { sampleState with util_kwargs := [("x", "0"), ("y", "2")] }
        [("x", "9"), ("z", "3")]).2 "z" = some "3" := by
  refine ⟨by decide, by decide, ?_, ?_⟩
  · rw [get_util_kwargs_query_params_win sampleRequest
        { sampleState with util_kwargs := [("x", "0"), ("y", "2")] }
        [("x", "9"), ("z", "3")] "x" (by decide) (by decide)]
    rfl
  · rw [get_util_kwargs_query_params_win sampleRequest
        { sampleState with util_kwargs := [("x", "0"), ("y", "2")] }
        [("x", "9"), ("z", "3")] "z" (by decide) (by decide)]
    rfl

/-- C2: on a non-AJAX request (`is_ajax` false), `render_to_response` —
called as every call site calls it, with `is_ajax=self.is_ajax` — yields a
response of the plain HTTP class, and `_valid_template` first forces
`template_name` to `GET_TEMPLATE`, so the full template is rendered
whatever `template_name` held before. -/
theorem render_to_response_non_ajax_html
    (render : List String → Ctx → String) (req : Request) (s : ViewState)
    (context : Ctx) (h : s.is_ajax = false) :
    render_to_response render req s s.is_ajax context =
      ({ s with template_name := some GET_TEMPLATE },
       Except.ok (Response.http (ResponseArgs.content (render [GET_TEMPLATE]
         (dictSet (dictUpdate context (get_context_data s))
           "csrf_token_value" (Value.str req.token))))),
       [Event.get_content_called, Event.valid_template_called,
        Event.get_token_called, Event.csrf_injected,
        Event.render_to_string_called [GET_TEMPLATE]
          (dictSet (dictUpdate context (get_context_data s))
            "csrf_token_value" (Value.str req.token))]) := by
  have hc : can_redirect s = false := by
    simp [can_redirect, h]
  simp [render_to_response, hc, _get_content, _valid_template, h,
        get_template_names, get_response, mkResponse]

/-- Witness for C2 at a non-AJAX request, starting from a `template_name`
that is not the full template: the response is HTML-typed and the full
template is the one rendered. -/
theorem render_to_response_non_ajax_html_witness :
    (render_to_response sampleRender sampleRequest
        { sampleState with is_ajax := false,
                           template_name := some GET_TEMPLATE_CONTENT }
        ({ sampleState with is_ajax := false,
                            template_name := some GET_TEMPLATE_CONTENT }
          : ViewState).is_ajax []).1.template_name = some GET_TEMPLATE ∧
    (render_to_response sampleRender sampleRequest
        { sampleState with is_ajax := false,
                           template_name := some GET_TEMPLATE_CONTENT }
        ({ sampleState with is_ajax := false,
                            template_name := some GET_TEMPLATE_CONTENT }
          : ViewState).is_ajax []).2.1 =
      Except.ok (Response.http
        (ResponseArgs.content "django_modalview/modal.html")) := by
  rw [render_to_response_non_ajax_html sampleRender sampleRequest
      { sampleState with is_ajax := false,
                         template_name := some GET_TEMPLATE_CONTENT } [] rfl]
  exact ⟨rfl, rfl⟩

/-- C3: on an AJAX request with no pending redirect, `render_to_response`
returns the JSON response class instantiated with exactly the string the
renderer produces for the current template name, over a context holding
`csrf_token_value` bound to the issued token. -/
theorem render_to_response_ajax_json
    (render : List String → Ctx → String) (req : Request) (s : ViewState)
    (t : String) (context : Ctx) (h1 : s.is_ajax = true)
    (h2 : can_redirect s = false) (h3 : s.template_name = some t) :
    render_to_response render req s s.is_ajax context =
      (s,
       Except.ok (Response.json (ResponseArgs.content (render [t]
         (dictSet (dictUpdate context (get_context_data s))
           "csrf_token_value" (Value.str req.token))))),
       [Event.get_content_called, Event.valid_template_called,
        Event.get_token_called, Event.csrf_injected,
        Event.render_to_string_called [t]
          (dictSet (dictUpdate context (get_context_data s))
            "csrf_token_value" (Value.str req.token))]) ∧
    dictGet (dictSet (dictUpdate context (get_context_data s))
        "csrf_token_value" (Value.str req.token)) "csrf_token_value"
      = some (Value.str req.token) := by
  constructor
  · have hv : _valid_template s = s := by
      simp [_valid_template, h1]
    simp [render_to_response, h2, _get_content, hv, h3,
          get_template_names, get_response, h1, mkResponse]
  · rw [dictGet_dictSet]
    simp

/-- Witness for C3: the AJAX sample with the redirect flag unarmed yields
the JSON response wrapping the rendered current template, and the render
context carries the token. -/
theorem render_to_response_ajax_json_witness :
    (render_to_response sampleRender sampleRequest
        { sampleState with _can_redirect := false }
        ({ sampleState with _can_redirect := false } : ViewState).is_ajax
        []).2.1 =
      Except.ok (Response.json
        (ResponseArgs.content "django_modalview/modal.html")) ∧
    dictGet (dictSet (dictUpdate [] (get_context_data
        { sampleState with _can_redirect := false }))
        "csrf_token_value" (Value.str sampleRequest.token))
        "csrf_token_value" = some (Value.str "tok") := by
  have h := render_to_response_ajax_json sampleRender sampleRequest
    { sampleState with _can_redirect := false } GET_TEMPLATE []
    rfl (by decide) rfl
  exact ⟨by rw [h.1]; rfl, h.2⟩

/-- C8: every non-redirect path goes through `_get_content`: the call
trace is exactly `_get_content` / `_valid_template` / `get_token` /
the context insertion of `csrf_token_value` / `render_to_string`, in that
order, with the token insertion immediately before the render call, and
the rendered context holds `csrf_token_value` bound to the issued
token. -/
theorem non_redirect_path_injects_csrf
    (render : List String → Ctx → String) (req : Request) (s : ViewState)
    (is_ajax : Bool) (context : Ctx) (t : String)
    (h : can_redirect s = false)
    (ht : (_valid_template s).template_name = some t) :
    (render_to_response render req s is_ajax context).2.2 =
      [Event.get_content_called, Event.valid_template_called,
       Event.get_token_called, Event.csrf_injected,
       Event.render_to_string_called [t]
         (dictSet (dictUpdate context (get_context_data s))
           "csrf_token_value" (Value.str req.token))] ∧
    dictGet (dictSet (dictUpdate context (get_context_data s))
        "csrf_token_value" (Value.str req.token)) "csrf_token_value"
      = some (Value.str req.token) := by
  constructor
  · simp [render_to_response, h, _get_content, get_template_names, ht]
  · rw [dictGet_dictSet]
    simp

/-- Witness for C8 at the non-AJAX sample request. -/
theorem non_redirect_path_injects_csrf_witness :
    (render_to_response sampleRender sampleRequest
        { sampleState with is_ajax := false } false []).2.2 =
      [Event.get_content_called, Event.valid_template_called,
       Event.get_token_called, Event.csrf_injected,
       Event.render_to_string_called [GET_TEMPLATE]
         (dictSet (dictUpdate [] (get_context_data
             { sampleState with is_ajax := false }))
           "csrf_token_value" (Value.str sampleRequest.token))] ∧
    dictGet (dictSet (dictUpdate [] (get_context_data
        { sampleState with is_ajax := false }))
        "csrf_token_value" (Value.str sampleRequest.token))
        "csrf_token_value" = some (Value.str "tok") := by
  have h := non_redirect_path_injects_csrf sampleRender sampleRequest
    { sampleState with is_ajax := false } false [] GET_TEMPLATE
    (by decide) rfl
  exact h

/-- C9: on the redirect branch the selected response class is always the
JSON class, never the plain HTTP one: `can_redirect()` forces
`self.is_ajax`, and every call site passes `is_ajax=self.is_ajax`, so the
HTTP class is unreachable with the redirect keyword arguments. -/
theorem redirect_branch_uses_json_class
    (render : List String → Ctx → String) (req : Request) (s : ViewState)
    (is_ajax : Bool) (context : Ctx) (h : can_redirect s = true)
    (ha : is_ajax = s.is_ajax) :
    get_response is_ajax = ResponseClassKind.json_response_class ∧
    render_to_response render req s is_ajax context =
      (s, Except.ok (Response.json (ResponseArgs.redirect s.redirect_to)),
       []) := by
  have haj : s.is_ajax = true := by
    have hh := h
    simp only [can_redirect, Bool.and_eq_true] at hh
    exact hh.1.2
  subst ha
  constructor
  · simp [get_response, haj]
  · simp [render_to_response, h, get_response, haj, mkResponse]

/-- Witness for C9 at the armed AJAX sample. -/
theorem redirect_branch_uses_json_class_witness :
    get_response sampleState.is_ajax
      = ResponseClassKind.json_response_class ∧
    render_to_response sampleRender sampleRequest sampleState
        sampleState.is_ajax [] =
      (sampleState,
       Except.ok (Response.json (ResponseArgs.redirect (some "/next"))),
       []) := by
  have h := redirect_branch_uses_json_class sampleRender sampleRequest
    sampleState sampleState.is_ajax [] (by decide) rfl
  exact ⟨h.1, by rw [h.2]; rfl⟩

/-- C7: on a GET whose query parameters carry a truthy `util` marker (the
view defining the utility method named by `util_name`),
`ModalTemplateUtilView.get` first arms `_can_redirect`, then runs the
utility method through `get_util` on the armed state, then switches
`template_name` to `content_template_name`, and only then delegates to the
inherited get; on a GET without the marker it delegates directly, with the
state untouched and no utility events in the trace. -/
theorem util_view_get_marker_effects (methods : UtilMethods)
    (render : List String → Ctx → String) (req : Request) (s : ViewState)
    (kwargs : List (String × String)) (f : UtilFn)
    (hf : dictGet methods s.util_name = some f) :
    (truthyOptStr (dictGet req.GET "util") = true →
      ModalTemplateUtilView_get methods render req s kwargs =
        (let p := get_util_kwargs req { s with _can_redirect := true } kwargs
         let s2 := f p.1 [] p.2
         let s3 : ViewState :=
           { s2 with template_name := s2.content_template_name }
         let r := ModalView_get_with
           ModalTemplateUtilView_get_context_modal_data render req s3 kwargs
         (r.1, r.2.1,
          Event.get_util_kwargs_called ::
            Event.util_method_called s.util_name p.2 :: r.2.2))) ∧
    (truthyOptStr (dictGet req.GET "util") = false →
      ModalTemplateUtilView_get methods render req s kwargs =
        ModalView_get_with ModalTemplateUtilView_get_context_modal_data
          render req s kwargs) := by
  constructor
  · intro ht
    simp [ModalTemplateUtilView_get, ht, get_util, hf]
  · intro ht
    simp [ModalTemplateUtilView_get, ht]

/-- Witness for C7: with the marker, the sample utility method runs on the
armed state (its trace events lead), the template switches to the content
variant, and — the utility having set a redirect target — the final
response is the JSON redirect; without the marker, the call is exactly the
plain delegation. -/
theorem util_view_get_marker_effects_witness :
    (ModalTemplateUtilView_get [("util", sampleUtil)] sampleRender
        sampleRequest
        { sampleState with _can_redirect := false, redirect_to := none }
        []).2.1 =
      Except.ok (Response.json (ResponseArgs.redirect (some "5"))) ∧
    (ModalTemplateUtilView_get [("util", sampleUtil)] sampleRender
        sampleRequest
        { sampleState with _can_redirect := false, redirect_to := none }
        []).1._can_redirect = true ∧
    (ModalTemplateUtilView_get [("util", sampleUtil)] sampleRender
        sampleRequest
        { sampleState with _can_redirect := false, redirect_to := none }
        []).1.template_name = some GET_TEMPLATE_CONTENT ∧
    (ModalTemplateUtilView_get [("util", sampleUtil)] sampleRender
        sampleRequest
        { sampleState with _can_redirect := false, redirect_to := none }
        []).2.2 =
      [Event.get_util_kwargs_called,
       Event.util_method_called "util" [("util", "true"), ("x", "5")]] ∧
    ModalTemplateUtilView_get [("util", sampleUtil)] sampleRender
        { sampleRequest with GET := [] }
        { sampleState with _can_redirect := false, redirect_to := none }
        [] =
      ModalView_get_with ModalTemplateUtilView_get_context_modal_data
        sampleRender { sampleRequest with GET := [] }
        { sampleState with _can_redirect := false, redirect_to := none }
        [] := by
  have h1 := (util_view_get_marker_effects [("util", sampleUtil)]
    sampleRender sampleRequest
    { sampleState with _can_redirect := false, redirect_to := none }
    [] sampleUtil rfl).1 (by decide)
  have h2 := (util_view_get_marker_effects [("util", sampleUtil)]
    sampleRender { sampleRequest with GET := [] }
    { sampleState with _can_redirect := false, redirect_to := none }
    [] sampleUtil rfl).2 (by decide)
  refine ⟨?_, ?_, ?_, ?_, h2⟩ <;> rw [h1] <;> rfl

end DjangoModalview
